import Mathlib

/-!
Verification development for the pb_joke_bot repository.

The Python sources are embedded shallowly: pure fragments become Lean
functions, the Telegram/OpenAI network boundary is modelled by explicit
parameters (an Except value for a remote call outcome), and timestamps are
natural numbers.  Python strings are modelled by Lean strings, with the
handful of Python string primitives the code uses (lower, strip, replace,
startswith, the substring operator) re-implemented over character lists so
that every definition is kernel-executable.
-/

/-- Model of Python str.lower restricted to the alphabets this program uses:
ASCII capital letters and the Russian Cyrillic capital letters
(U+0410 to U+042F, plus Ё U+0401).  Every other character is left unchanged,
exactly as str.lower leaves the lowercase Cyrillic and ASCII text of the
trigger phrases unchanged. -/
def pyLowerChar (c : Char) : Char :=
  if ('A' ≤ c ∧ c ≤ 'Z') ∨ ('А' ≤ c ∧ c ≤ 'Я') then Char.ofNat (c.toNat + 32)
  else if c = 'Ё' then 'ё'
  else c

/-- Lower-case a string character by character, as Python str.lower does. -/
def pyLower (s : String) : String := (s.toList.map pyLowerChar).asString

/-- Model of the Python substring operator needle in haystack, over character
lists: the needle occurs as a prefix here or somewhere in the tail. -/
def listContains (needle : List Char) : List Char → Bool
  | [] => needle.isEmpty
  | c :: rest => needle.isPrefixOf (c :: rest) || listContains needle rest

/-- String-level wrapper for the Python substring operator: inStr n h models
the Python expression n in h. -/
def inStr (needle haystack : String) : Bool := listContains needle.toList haystack.toList

/-- Model of Python str.strip over a character list: drop whitespace from both
ends. -/
def pyStripList (l : List Char) : List Char :=
  ((l.dropWhile Char.isWhitespace).reverse.dropWhile Char.isWhitespace).reverse

/-- Model of Python str.strip. -/
def pyStrip (s : String) : String := (pyStripList s.toList).asString

/-- Model of Python str.startswith. -/
def pyStartsWith (s p : String) : Bool := p.toList.isPrefixOf s.toList

/-- Fuel-indexed worker for pyReplaceEmpty: scan left to right, deleting each
non-overlapping occurrence of the (non-empty) needle, as Python
str.replace(needle, "") does.  The fuel is the length of the scanned list,
which bounds the number of steps. -/
def pyReplaceAux (needle : List Char) : Nat → List Char → List Char
  | 0, l => l
  | _ + 1, [] => []
  | fuel + 1, c :: rest =>
    if needle.isPrefixOf (c :: rest) then
      pyReplaceAux needle fuel (List.drop needle.length (c :: rest))
    else
      c :: pyReplaceAux needle fuel rest

/-- Model of the Python expression s.replace(needle, "") for a non-empty
needle: delete every non-overlapping occurrence, scanning left to right. -/
def pyReplaceEmpty (s needle : String) : String :=
  (pyReplaceAux needle.toList s.toList.length s.toList).asString

/-- The static trigger phrase list of bot.py (lines 48 to 54). -/
def TRIGGER_PHRASES : List String :=
  ["можно пояснительную бригаду",
   "мпб",
   "пояснительную бригаду",
   "пояснительная бригада",
   "не понял"]

/-- The trigger decision of bot.py handle_trigger_message (lines 285 and 288):
lower-case the message text when it is present (use the empty string
otherwise), then test every trigger phrase for literal substring containment
via any(phrase in message_text for phrase in TRIGGER_PHRASES). -/
def handle_trigger_decision (text : Option String) : Bool :=
  let message_text := match text with
    | some t => pyLower t
    | none => ""
  TRIGGER_PHRASES.any (fun phrase => inStr phrase message_text)

/-- The inner trigger-containment test of bot.py get_text_from_message line
215: any(phrase in current_text.lower() for phrase in TRIGGER_PHRASES). -/
def containsTriggerPhrase (s : String) : Bool :=
  TRIGGER_PHRASES.any (fun phrase => inStr phrase (pyLower s))

/-- One Telegram photo size entry, as the python-telegram-bot PhotoSize object
used by bot.py. -/
structure TgPhoto where
  file_id : String
  width : Nat
  height : Nat
deriving DecidableEq

/-- A Telegram document attachment: file id plus the optional declared MIME
type. -/
structure TgDocument where
  file_id : String
  mime_type : Option String
deriving DecidableEq

/-- The fields of a replied-to Telegram message that bot.py reads: photo
sizes, document, text. -/
structure TgReply where
  photo : List TgPhoto
  document : Option TgDocument
  text : Option String
deriving DecidableEq

/-- The fields of an inbound Telegram message that bot.py reads: photo sizes,
document, text, and the optional replied-to message. -/
structure TgMessage where
  photo : List TgPhoto
  document : Option TgDocument
  text : Option String
  reply_to_message : Option TgReply
deriving DecidableEq

/-- Truth of the Python condition document and document.mime_type and
document.mime_type.startswith("image/"): the document declares a MIME type
that starts with image/ (an absent or empty MIME type fails the test). -/
def isImageDoc (d : TgDocument) : Bool :=
  match d.mime_type with
  | some mt => pyStartsWith mt "image/"
  | none => false

/-- The image source selected by bot.py get_image_from_message: a photo or an
image-typed document, taken from the message itself or from the replied-to
message. -/
inductive ImageChoice where
  | directPhoto (p : TgPhoto)
  | replyPhoto (p : TgPhoto)
  | directDoc (d : TgDocument)
  | replyDoc (d : TgDocument)
deriving DecidableEq

/-- The last photo size of the replied-to message, when a reply with a
non-empty photo list exists (Python: update.message.reply_to_message and
update.message.reply_to_message.photo, then photo[-1]). -/
def replyPhotoLast (m : TgMessage) : Option TgPhoto :=
  match m.reply_to_message with
  | some r => r.photo.getLast?
  | none => none

/-- The message document when it is image-typed (branch 3 of the chain). -/
def directImageDoc (m : TgMessage) : Option TgDocument :=
  match m.document with
  | some d => if isImageDoc d then some d else none
  | none => none

/-- The replied-to message document when it is image-typed (branch 4 of the
chain). -/
def replyImageDoc (m : TgMessage) : Option TgDocument :=
  match m.reply_to_message with
  | some r =>
    match r.document with
    | some d => if isImageDoc d then some d else none
    | none => none
  | none => none

/-- Selection logic of bot.py get_image_from_message (lines 162 to 200).  The
network download that follows the selection is abstracted away: the function
returns which image source the if/elif chain settles on, or none.  The chain
is: direct photo (last size), else reply photo (last size), else image-typed
direct document, else image-typed reply document. -/
def get_image_from_message (m : TgMessage) : Option ImageChoice :=
  match m.photo.getLast? with
  | some p => some (.directPhoto p)
  | none =>
    match replyPhotoLast m with
    | some p => some (.replyPhoto p)
    | none =>
      match directImageDoc m with
      | some d => some (.directDoc d)
      | none =>
        match replyImageDoc m with
        | some d => some (.replyDoc d)
        | none => none

/-- The current_text value computed by bot.py get_text_from_message lines
210 to 213: strip the message text; when the result starts with /explain,
delete every occurrence of /explain and strip again. -/
def explainStripped (t : String) : String :=
  let current0 := pyStrip t
  if pyStartsWith current0 "/explain" then pyStrip (pyReplaceEmpty current0 "/explain")
  else current0

/-- The reply fallback of bot.py get_text_from_message lines 220 to 224: the
stripped reply text when a reply with truthy text exists and the stripped
text is non-empty, otherwise nothing. -/
def replyTextFallback (m : TgMessage) : Option String :=
  match m.reply_to_message with
  | some r =>
    match r.text with
    | some rt =>
      if pyStrip rt ≠ "" then some (pyStrip rt) else none
    | none => none
  | none => none

/-- Embedding of bot.py get_text_from_message (lines 202 to 229).  When the
raw message text is truthy, it is stripped and cleaned of /explain; the
result is used only when it is non-empty and contains no trigger phrase
(case-insensitively).  Otherwise the replied-to message text is used when
present and non-empty after stripping.  Otherwise the function yields
none. -/
def get_text_from_message (m : TgMessage) : Option String :=
  let fromMessage : Option String :=
    match m.text with
    | some t =>
      if t ≠ "" then
        let current := explainStripped t
        if current ≠ "" ∧ containsTriggerPhrase current = false then some current
        else none
      else none
    | none => none
  match fromMessage with
  | some t => some t
  | none => replyTextFallback m

/-- The static apology string returned by analyze_image_with_openai on any
failure. -/
def IMAGE_APOLOGY : String := "Извините, не смог проанализировать изображение. Попробуйте позже."

/-- The static apology string returned by analyze_text_with_openai on any
failure. -/
def TEXT_APOLOGY : String := "Извините, не смог проанализировать текст. Попробуйте позже."

/-- Shallow embedding of bot.py analyze_image_with_openai (lines 61 to 101):
the body of the try block (base64 encoding, instruction loading and the
remote chat-completions call) is modelled by its outcome, an Except value
whose ok payload is the remote message content and whose error payload
describes the raised exception.  The except branch returns the static
apology. -/
def analyze_image_with_openai (remote : Except String String) : String :=
  match remote with
  | .ok content => content
  | .error _ => IMAGE_APOLOGY

/-- Shallow embedding of bot.py analyze_text_with_openai (lines 103 to 131),
with the remote call modelled exactly as in analyze_image_with_openai. -/
def analyze_text_with_openai (remote : Except String String) : String :=
  match remote with
  | .ok content => content
  | .error _ => TEXT_APOLOGY

theorem listContains_iff_infix (needle hay : List Char) :
    listContains needle hay = true ↔ needle <:+: hay := by
  induction hay with
  | nil => simp [listContains, List.isEmpty_iff]
  | cons c rest ih =>
    simp [listContains, List.infix_cons_iff, List.isPrefixOf_iff_prefix, ih]

example : handle_trigger_decision (some "МПБ слишком просто") = true := by decide
example : handle_trigger_decision (some "непонятно") = false := by decide
example : get_text_from_message
    { photo := [], document := none, text := some "мпб лол",
      reply_to_message := some { photo := [], document := none, text := some "привет" } }
    = some "привет" := by decide

/-- One persisted group record of simple_group_detector.py: the value stored
under the chat id key in the groups map.  Timestamps are modelled as natural
numbers. -/
structure GroupInfo where
  id : Int
  title : String
  type : String
  first_detected : Nat
  last_activity : Nat
  event_type : String
  status : String
  removed_at : Option Nat
deriving DecidableEq

/-- The whole persisted groups file: the groups map (an insertion-ordered
association list keyed by the decimal chat id string, as a Python dict) and
the last_updated stamp. -/
structure GroupsData where
  groups : List (String × GroupInfo)
  last_updated : Option Nat
deriving DecidableEq

/-- Lookup in the groups map (Python: group_key in groups and groups[key]). -/
def lookupKey (k : String) : List (String × GroupInfo) → Option GroupInfo
  | [] => none
  | (k2, v) :: rest => if k2 = k then some v else lookupKey k rest

/-- Assignment groups[key] = v on a Python dict: replace in place when the
key exists, append otherwise. -/
def updateKey (k : String) (v : GroupInfo) : List (String × GroupInfo) → List (String × GroupInfo)
  | [] => [(k, v)]
  | (k2, v2) :: rest => if k2 = k then (k, v) :: rest else (k2, v2) :: updateKey k v rest

/-- Embedding of simple_group_detector.py save_groups_data (lines 32 to 38):
stamp last_updated with the current time and write the file. -/
def save_groups_data (now : Nat) (d : GroupsData) : GroupsData :=
  { d with last_updated := some now }

/-- Embedding of simple_group_detector.py save_group_info (lines 40 to 68):
build a fresh active record stamped now; when the key already exists keep
the existing first_detected; store the record and save.  Storing the fresh
record drops any removed_at the old record carried, exactly as the Python
dict assignment replaces the whole value. -/
def save_group_info (now : Nat) (chat_id : Int) (chat_title chat_type event_type : String)
    (d : GroupsData) : GroupsData :=
  let group_key := toString chat_id
  let base : GroupInfo :=
    { id := chat_id, title := chat_title, type := chat_type,
      first_detected := now, last_activity := now,
      event_type := event_type, status := "active", removed_at := none }
  let info :=
    match lookupKey group_key d.groups with
    | some existing => { base with first_detected := existing.first_detected }
    | none => base
  save_groups_data now { d with groups := updateKey group_key info d.groups }

/-- One my_chat_member update as read by bot_added_handler: the chat fields
plus the old and new membership status strings (old may be absent). -/
structure ChatMemberUpdatedEvent where
  chat_id : Int
  chat_title : Option String
  chat_type : String
  old_status : Option String
  new_status : String
deriving DecidableEq

/-- Truth of the bot-added condition of simple_group_detector.py lines 82 and
83: old status left or absent, new status member or administrator. -/
def isAddTransition (ev : ChatMemberUpdatedEvent) : Bool :=
  (ev.old_status == some "left" || ev.old_status == none) &&
  (ev.new_status == "member" || ev.new_status == "administrator")

/-- Truth of the bot-removed condition of simple_group_detector.py lines 95
and 96: old status member or administrator, new status left. -/
def isRemoveTransition (ev : ChatMemberUpdatedEvent) : Bool :=
  (ev.old_status == some "member" || ev.old_status == some "administrator") &&
  (ev.new_status == "left")

/-- Python chat.title or default: an absent or empty title becomes the
placeholder. -/
def titleOrDefault (t : Option String) : String :=
  match t with
  | some s => if s = "" then "Без названия" else s
  | none => "Без названия"

/-- Embedding of simple_group_detector.py bot_added_handler (lines 70 to
105), identical in logic to group_id_detector.py bot_added_handler (lines 76
to 110).  On an add transition the record is saved with event_type
bot_added; on a remove transition an existing record is marked removed and
stamped, and a missing record leaves the state untouched; any other
transition changes nothing. -/
def bot_added_handler (now : Nat) (ev : ChatMemberUpdatedEvent) (d : GroupsData) : GroupsData :=
  if isAddTransition ev then
    save_group_info now ev.chat_id (titleOrDefault ev.chat_title) ev.chat_type "bot_added" d
  else if isRemoveTransition ev then
    let group_key := toString ev.chat_id
    match lookupKey group_key d.groups with
    | some info =>
      save_groups_data now
        { d with groups :=
            updateKey group_key { info with status := "removed", removed_at := some now } d.groups }
    | none => d
  else d

/-- A telethon media attachment as read by export_chat_history.py: a photo or
a document with its MIME type.  The payload string is an abstract handle for
the downloadable bytes. -/
inductive TLMedia where
  | photo (payload : String)
  | document (mime : String) (payload : String)
deriving DecidableEq

/-- A telethon message sender: a User with its identity fields, or any other
entity kind (chat, channel), which the exporter ignores. -/
inductive TLSender where
  | user (id : Int) (username : Option String) (first_name : Option String)
      (last_name : Option String)
  | other
deriving DecidableEq

/-- The fields of a telethon Message that export_chat_history.py reads. -/
structure TLMessage where
  id : Int
  sender : Option TLSender
  date : String
  text : Option String
  media : Option TLMedia
  reply_to_msg_id : Option Int
deriving DecidableEq

/-- The ChatMessage dataclass of export_chat_history.py lines 31 to 46. -/
structure ChatMessage where
  id : Int
  chat_id : Int
  chat_title : String
  user_id : Option Int
  username : Option String
  user_full_name : Option String
  date : String
  text : String
  message_type : String
  has_media : Bool
  media_description : Option String
  image_base64 : Option String
  reply_to_message_id : Option Int
deriving DecidableEq

/-- Embedding of export_chat_history.py process_media (lines 112 to 164).
The download-and-reencode pipeline and the remote description call are
modelled by the oracles download and describe; a download failure or caught
exception yields none, leaving both results absent.  A document is processed
only when its MIME type starts with image/. -/
def process_media (download describe : String → Option String)
    (media : Option TLMedia) : Option String × Option String :=
  match media with
  | none => (none, none)
  | some (.photo payload) =>
    match download payload with
    | some b64 => (some b64, describe b64)
    | none => (none, none)
  | some (.document mime payload) =>
    if pyStartsWith mime "image/" then
      match download payload with
      | some b64 => (some b64, describe b64)
      | none => (none, none)
    else (none, none)

/-- The per-message body of the export loop of export_chat_history.py lines
181 to 228: extract sender identity when the sender is a User, default the
text, classify the message type from the media variant, process media, and
assemble the ChatMessage. -/
def build_chat_message (download describe : String → Option String)
    (chat_id : Int) (chat_title : String) (m : TLMessage) : ChatMessage :=
  let ids : Option Int × Option String × Option String :=
    match m.sender with
    | some (.user uid uname fname lname) =>
      (some uid, uname, some (pyStrip ((fname.getD "") ++ " " ++ (lname.getD ""))))
    | some .other => (none, none, none)
    | none => (none, none, none)
  let message_type :=
    match m.media with
    | none => "text"
    | some (.photo _) => "photo"
    | some (.document _ _) => "document"
  let pm := process_media download describe m.media
  { id := m.id, chat_id := chat_id, chat_title := chat_title,
    user_id := ids.1, username := ids.2.1, user_full_name := ids.2.2,
    date := m.date, text := m.text.getD "",
    message_type := message_type, has_media := m.media.isSome,
    media_description := pm.2, image_base64 := pm.1,
    reply_to_message_id := m.reply_to_msg_id }

/-- Embedding of the message loop of export_chat_history.py export_chat_history
(lines 181 to 235): every source message yields exactly one ChatMessage, in
iteration order. -/
def export_chat_history (download describe : String → Option String)
    (chat_id : Int) (chat_title : String) (msgs : List TLMessage) : List ChatMessage :=
  msgs.map (build_chat_message download describe chat_id chat_title)

/-- One element of the JSON array written by save_to_json. -/
structure JsonRecord where
  id : Int
  chat_id : Int
  chat_title : String
  user_id : Option Int
  username : Option String
  user_full_name : Option String
  date : String
  text : String
  message_type : String
  has_media : Bool
  media_description : Option String
  image_base64 : Option String
  reply_to_message_id : Option Int
deriving DecidableEq

/-- Embedding of export_chat_history.py save_to_json (lines 240 to 270): one
dict per exported message, field by field, in order. -/
def save_to_json (msgs : List ChatMessage) : List JsonRecord :=
  msgs.map (fun msg =>
    { id := msg.id, chat_id := msg.chat_id, chat_title := msg.chat_title,
      user_id := msg.user_id, username := msg.username,
      user_full_name := msg.user_full_name, date := msg.date, text := msg.text,
      message_type := msg.message_type, has_media := msg.has_media,
      media_description := msg.media_description, image_base64 := msg.image_base64,
      reply_to_message_id := msg.reply_to_message_id })

/-- The metadata object of one JSONL line of prepare_for_vector_db. -/
structure VectorMetadata where
  message_id : Int
  chat_id : Int
  chat_title : String
  user_id : Option Int
  username : Option String
  user_full_name : Option String
  date : String
  message_type : String
  has_media : Bool
  reply_to_message_id : Option Int
deriving DecidableEq

/-- One JSONL line of prepare_for_vector_db: content, metadata, and the
base64 image when present and non-empty. -/
structure VectorEntry where
  content : String
  metadata : VectorMetadata
  image_base64 : Option String
deriving DecidableEq

/-- The content field of one JSONL line (export_chat_history.py lines 281 to
307): the labelled text and media description parts, joined by the bar
separator; an empty or absent part is skipped, as Python truthiness does. -/
def vector_content (msg : ChatMessage) : String :=
  let parts : List String :=
    (if msg.text ≠ "" then ["Текст: " ++ msg.text] else []) ++
    (match msg.media_description with
     | some d => if d ≠ "" then ["Изображение: " ++ d] else []
     | none => [])
  String.intercalate " | " parts

/-- Embedding of export_chat_history.py prepare_for_vector_db (lines 272 to
318): one JSONL line per exported message, in order, whose metadata
message_id is the exported message id. -/
def prepare_for_vector_db (msgs : List ChatMessage) : List VectorEntry :=
  msgs.map (fun msg =>
    { content := vector_content msg,
      metadata :=
        { message_id := msg.id, chat_id := msg.chat_id, chat_title := msg.chat_title,
          user_id := msg.user_id, username := msg.username,
          user_full_name := msg.user_full_name, date := msg.date,
          message_type := msg.message_type, has_media := msg.has_media,
          reply_to_message_id := msg.reply_to_message_id },
      image_base64 :=
        match msg.image_base64 with
        | some b => if b = "" then none else some b
        | none => none })

/-- Python max(xs, key=f): none on an empty list (Python raises there), and
otherwise the fold that keeps the first element whose key every later key
fails to exceed strictly. -/
def pyMaxBy {α : Type} (f : α → Nat) : List α → Option α
  | [] => none
  | x :: xs => some (xs.foldl (fun acc y => if f acc < f y then y else acc) x)

/-- The sort key of bot_export.py process_photo line 94: pixel area. -/
def photoArea (p : TgPhoto) : Nat := p.width * p.height

/-- The photo picked by bot_export.py process_photo (lines 88 to 95): the
area-maximal element of the offered size list. -/
def process_photo_choice (photos : List TgPhoto) : Option TgPhoto :=
  pyMaxBy photoArea photos

/-- The photo picked by bot.py get_image_from_message lines 163 to 168: the
last element of the offered size list. -/
def bot_photo_choice (photos : List TgPhoto) : Option TgPhoto :=
  photos.getLast?

/-- Pillow round_aspect helper, modelled from the Pillow Image.thumbnail
routine that export_chat_history.py and bot_export.py invoke with bounding
box (800, 800): pick floor or ceiling of the exact rational target by the
given error functional (floor wins ties, as the Python min of two candidates
does), then clamp below by 1. -/
def round_aspect (q : ℚ) (err : ℤ → ℚ) : ℤ :=
  max (if err ⌈q⌉ < err ⌊q⌋ then ⌈q⌉ else ⌊q⌋) 1

/-- Model of the Pillow Image.thumbnail target-size computation in exact
rational arithmetic: inside the box nothing changes; otherwise the bounding
dimension is kept and the other is rounded from the exact aspect-preserving
value. -/
def thumbnail_size (sx sy w h : ℤ) : ℤ × ℤ :=
  if sx ≥ w ∧ sy ≥ h then (w, h)
  else
    let aspect : ℚ := (w : ℚ) / (h : ℚ)
    if (sx : ℚ) / (sy : ℚ) ≥ aspect then
      (round_aspect ((sy : ℚ) * aspect) (fun n => |aspect - (n : ℚ) / (sy : ℚ)|), sy)
    else
      (sx, round_aspect ((sx : ℚ) / aspect)
        (fun n => if n = 0 then 0 else |aspect - (sx : ℚ) / (n : ℚ)|))

/-- The output image size of the thumbnail call in export_chat_history.py
process_media (lines 128 to 130) and bot_export.py process_photo (lines 108
to 110): Pillow thumbnail with bounding box (800, 800). -/
def process_media_size (w h : ℤ) : ℤ × ℤ := thumbnail_size 800 800 w h

/-- One parsed message element of the HTML export page, as read by
convert_html_to_rag_format.py: the optional data-message-id attribute and
the extracted sender, time and text strings (empty when the selector finds
nothing). -/
structure HtmlMessageElement where
  message_id : Option String
  sender : String
  time : String
  text : String
deriving DecidableEq

/-- One collected item of convert_html_to_rag_format.py main. -/
structure RagItem where
  message_id : Option String
  sender : String
  time : String
  text : String
deriving DecidableEq

/-- The collection loop of convert_html_to_rag_format.py main (lines 30 to
51): elements whose extracted text is empty are skipped, every other element
yields exactly one item, in page order. -/
def collect_items (els : List HtmlMessageElement) : List RagItem :=
  els.filterMap (fun msg =>
    if msg.text = "" then none
    else some { message_id := msg.message_id, sender := msg.sender,
                time := msg.time, text := msg.text })

/-- The Markdown lines written by convert_html_to_rag_format.py (lines 54 to
57), one line per collected item. -/
def md_lines (els : List HtmlMessageElement) : List String :=
  (collect_items els).map (fun item =>
    "[" ++ item.time ++ "] " ++ item.sender ++ ": " ++ item.text ++ "\n")

/-- The metadata object of one JSONL record of the HTML converter. -/
structure RagMetadata where
  message_id : Option String
  sender : String
  time : String
  source : String
deriving DecidableEq

/-- One JSONL record of the HTML converter. -/
structure RagRecord where
  content : String
  metadata : RagMetadata
deriving DecidableEq

/-- The JSONL records written by convert_html_to_rag_format.py (lines 62 to
75), one record per collected item. -/
def jsonl_records (els : List HtmlMessageElement) : List RagRecord :=
  (collect_items els).map (fun item =>
    { content := item.sender ++ ": " ++ item.text,
      metadata := { message_id := item.message_id, sender := item.sender,
                    time := item.time, source := "telegram_html_export" } })

/-- C3: the trigger decision of handle_trigger_message is true exactly when
some phrase of the static trigger list occurs literally as a substring of the
lower-cased message text; matching is a pure substring test with no word
boundaries, so a text containing no trigger phrase literally never matches.
The two closed facts check the case-insensitive match and the near-miss from
the spec. -/
theorem C3_trigger_substring :
    (∀ t : String, handle_trigger_decision (some t) = true ↔
      ∃ p ∈ TRIGGER_PHRASES, p.toList <:+: (pyLower t).toList)
  ∧ handle_trigger_decision (some "МПБ слишком просто") = true
  ∧ handle_trigger_decision (some "непонятно") = false := by
  refine ⟨fun t => ?_, by decide, by decide⟩
  simp [handle_trigger_decision, inStr, List.any_eq_true, listContains_iff_infix]

/-- C4: neither explainer propagates a failure: an ok remote outcome is
returned verbatim, and every failing outcome collapses to the one static
apology string of the respective function, so the return value cannot
distinguish failure reasons. -/
theorem C4_explainer_total :
    (∀ s : String, analyze_image_with_openai (.ok s) = s)
  ∧ (∀ e : String, analyze_image_with_openai (.error e) = IMAGE_APOLOGY)
  ∧ (∀ e1 e2 : String,
      analyze_image_with_openai (.error e1) = analyze_image_with_openai (.error e2))
  ∧ (∀ s : String, analyze_text_with_openai (.ok s) = s)
  ∧ (∀ e : String, analyze_text_with_openai (.error e) = TEXT_APOLOGY)
  ∧ (∀ e1 e2 : String,
      analyze_text_with_openai (.error e1) = analyze_text_with_openai (.error e2)) :=
  ⟨fun _ => rfl, fun _ => rfl, fun _ _ => rfl, fun _ => rfl, fun _ => rfl, fun _ _ => rfl⟩

/-- C1: the content resolver follows the fixed precedence chain.  A direct
photo always wins (in particular it beats a reply photo); a reply photo is
selected only when the message has no photo; an image-typed direct document
only when neither photo source exists; an image-typed reply document only
when the first three sources are all absent. -/
theorem C1_image_precedence (m : TgMessage) :
    (∀ p, m.photo.getLast? = some p →
      get_image_from_message m = some (.directPhoto p))
  ∧ (m.photo = [] → ∀ r p, m.reply_to_message = some r → r.photo.getLast? = some p →
      get_image_from_message m = some (.replyPhoto p))
  ∧ (m.photo = [] → (∀ r, m.reply_to_message = some r → r.photo = []) →
      ∀ d, m.document = some d → isImageDoc d = true →
      get_image_from_message m = some (.directDoc d))
  ∧ (m.photo = [] → (∀ r, m.reply_to_message = some r → r.photo = []) →
      (∀ d, m.document = some d → isImageDoc d = false) →
      ∀ r d, m.reply_to_message = some r → r.document = some d → isImageDoc d = true →
      get_image_from_message m = some (.replyDoc d)) := by
  refine ⟨?_, ?_, ?_, ?_⟩
  · intro p hp
    simp [get_image_from_message, hp]
  · intro hphoto r p hr hp
    have h1 : m.photo.getLast? = none := by simp [hphoto]
    simp [get_image_from_message, h1, replyPhotoLast, hr, hp]
  · intro hphoto hreply d hd himg
    have h1 : m.photo.getLast? = none := by simp [hphoto]
    have h2 : replyPhotoLast m = none := by
      unfold replyPhotoLast
      cases hr : m.reply_to_message with
      | none => rfl
      | some r => simp [hreply r hr]
    have h3 : directImageDoc m = some d := by simp [directImageDoc, hd, himg]
    simp [get_image_from_message, h1, h2, h3]
  · intro hphoto hreply hdoc r d hr hrd himg
    have h1 : m.photo.getLast? = none := by simp [hphoto]
    have h2 : replyPhotoLast m = none := by
      unfold replyPhotoLast
      cases hr2 : m.reply_to_message with
      | none => rfl
      | some r2 => simp [hreply r2 hr2]
    have h3 : directImageDoc m = none := by
      unfold directImageDoc
      cases hd2 : m.document with
      | none => rfl
      | some d2 => simp [hdoc d2 hd2]
    have h4 : replyImageDoc m = some d := by simp [replyImageDoc, hr, hrd, himg]
    simp [get_image_from_message, h1, h2, h3, h4]

/-- Witness for C1: a concrete update carrying both a direct photo and a
reply photo resolves to the last direct photo size, never the reply photo. -/
theorem C1_image_precedence_witness :
    get_image_from_message
      { photo := [{ file_id := "p1", width := 90, height := 90 },
                  { file_id := "p2", width := 800, height := 600 }],
        document := none, text := some "мпб",
        reply_to_message := some { photo := [{ file_id := "rp", width := 320, height := 240 }],
                                   document := none, text := none } }
      = some (.directPhoto { file_id := "p2", width := 800, height := 600 }) :=
  (C1_image_precedence _).1 _ (by decide)

/-- The concrete update refuting C2: the message text carries the trigger
phrase мпб together with other text, and the replied-to message has text of
its own. -/
def c2Msg : TgMessage :=
  { photo := [], document := none, text := some "мпб лол",
    reply_to_message := some { photo := [], document := none, text := some "привет" } }

/-- Counterexample to C2 as stated: on a message whose text is the trigger
phrase мпб followed by лол, the remainder after stripping the trigger phrase
is лол, which is non-empty and not itself a trigger phrase, yet the resolver
does not return it; it returns the replied-to message text instead. -/
theorem C2_counterexample :
    pyStrip (pyReplaceEmpty "мпб лол" "мпб") = "лол"
  ∧ containsTriggerPhrase "лол" = false
  ∧ get_text_from_message c2Msg = some "привет"
  ∧ get_text_from_message c2Msg ≠ some "лол" :=
  ⟨by decide, by decide, by decide, by decide⟩

/-- C2 amended: the resolver never strips trigger phrases.  When the cleaned
message text (stripped, with /explain occurrences removed) contains a
configured trigger phrase, the resolver ignores the message text entirely
and falls through to the replied-to message text; the message text is
returned only when the cleaned text is non-empty and contains no trigger
phrase at all. -/
theorem C2_text_resolution_amended (m : TgMessage) (t : String)
    (ht : m.text = some t) :
    (containsTriggerPhrase (explainStripped t) = true →
      get_text_from_message m = replyTextFallback m)
  ∧ (explainStripped t ≠ "" → containsTriggerPhrase (explainStripped t) = false →
      get_text_from_message m = some (explainStripped t)) := by
  constructor
  · intro htrig
    by_cases htne : t = ""
    · subst htne
      simp [get_text_from_message, ht]
    · simp [get_text_from_message, ht, htne, htrig]
  · intro hne hfalse
    have htne : t ≠ "" := by
      intro h0
      apply hne
      rw [h0]
      decide
    simp [get_text_from_message, ht, htne, hne, hfalse]

/-- Witness for the amended C2 on the concrete refuting update: the cleaned
text still contains a trigger phrase, so the resolver yields the reply
fallback. -/
theorem C2_text_resolution_amended_witness :
    containsTriggerPhrase (explainStripped "мпб лол") = true
  ∧ get_text_from_message c2Msg = replyTextFallback c2Msg :=
  ⟨by decide, (C2_text_resolution_amended c2Msg "мпб лол" rfl).1 (by decide)⟩

theorem lookupKey_updateKey_self (k : String) (v : GroupInfo) (l : List (String × GroupInfo)) :
    lookupKey k (updateKey k v l) = some v := by
  induction l with
  | nil => simp [updateKey, lookupKey]
  | cons kv rest ih =>
    obtain ⟨k2, v2⟩ := kv
    by_cases h : k2 = k
    · simp [updateKey, lookupKey, h]
    · simp [updateKey, lookupKey, h, ih]

theorem remove_not_add (ev : ChatMemberUpdatedEvent) (h : isRemoveTransition ev = true) :
    isAddTransition ev = false := by
  simp only [isRemoveTransition, Bool.and_eq_true, Bool.or_eq_true, beq_iff_eq] at h
  simp only [isAddTransition, Bool.and_eq_true, Bool.or_eq_true, beq_iff_eq]
  simp [h.2]

/-- C5: from a state that does not know the chat yet, a bot-added event
followed by a bot-removed event leaves a record whose status is removed,
whose removed_at carries the removal time, and whose first_detected still
carries the add time; moreover save_group_info preserves an existing
record's first_detected on every refresh. -/
theorem C5_group_lifecycle (d : GroupsData) (cid : Int) (t1 t2 : Nat)
    (ev1 ev2 : ChatMemberUpdatedEvent)
    (h0 : lookupKey (toString cid) d.groups = none)
    (h1c : ev1.chat_id = cid) (h1a : isAddTransition ev1 = true)
    (h2c : ev2.chat_id = cid) (h2r : isRemoveTransition ev2 = true) :
    (∃ info : GroupInfo,
      lookupKey (toString cid)
          (bot_added_handler t2 ev2 (bot_added_handler t1 ev1 d)).groups = some info
        ∧ info.status = "removed" ∧ info.removed_at = some t2
        ∧ info.first_detected = t1)
  ∧ (∀ (now : Nat) (title ctype etype : String) (d2 : GroupsData) (info : GroupInfo),
      lookupKey (toString cid) d2.groups = some info →
      ∃ info2 : GroupInfo,
        lookupKey (toString cid)
            (save_group_info now cid title ctype etype d2).groups = some info2
          ∧ info2.first_detected = info.first_detected) := by
  constructor
  · have hstep1 :
        lookupKey (toString cid) (bot_added_handler t1 ev1 d).groups =
          some { id := cid, title := titleOrDefault ev1.chat_title, type := ev1.chat_type,
                 first_detected := t1, last_activity := t1, event_type := "bot_added",
                 status := "active", removed_at := none } := by
      simp [bot_added_handler, h1a, save_group_info, save_groups_data, h1c, h0,
        lookupKey_updateKey_self]
    refine ⟨{ id := cid, title := titleOrDefault ev1.chat_title, type := ev1.chat_type,
               first_detected := t1, last_activity := t1, event_type := "bot_added",
               status := "removed", removed_at := some t2 }, ?_, rfl, rfl, rfl⟩
    generalize hg : bot_added_handler t1 ev1 d = d1 at hstep1 ⊢
    simp [bot_added_handler, remove_not_add ev2 h2r, h2r, h2c, hstep1,
      save_groups_data, lookupKey_updateKey_self]
  · intro now title ctype etype d2 info hinfo
    refine ⟨{ id := cid, title := title, type := ctype,
               first_detected := info.first_detected, last_activity := now,
               event_type := etype, status := "active", removed_at := none }, ?_, rfl⟩
    simp [save_group_info, save_groups_data, hinfo, lookupKey_updateKey_self]

/-- Witness for C5: chat -100123 added at time 5 and removed at time 9 from
the empty state, plus a refresh of the resulting record at time 11. -/
theorem C5_group_lifecycle_witness :
    (∃ info : GroupInfo,
      lookupKey (toString (-100123 : Int))
          (bot_added_handler 9
            { chat_id := -100123, chat_title := some "Test group",
              chat_type := "supergroup", old_status := some "member", new_status := "left" }
            (bot_added_handler 5
              { chat_id := -100123, chat_title := some "Test group",
                chat_type := "supergroup", old_status := some "left", new_status := "member" }
              { groups := [], last_updated := none })).groups = some info
        ∧ info.status = "removed" ∧ info.removed_at = some 9
        ∧ info.first_detected = 5)
  ∧ (∀ (now : Nat) (title ctype etype : String) (d2 : GroupsData) (info : GroupInfo),
      lookupKey (toString (-100123 : Int)) d2.groups = some info →
      ∃ info2 : GroupInfo,
        lookupKey (toString (-100123 : Int))
            (save_group_info now (-100123) title ctype etype d2).groups = some info2
          ∧ info2.first_detected = info.first_detected) :=
  C5_group_lifecycle { groups := [], last_updated := none } (-100123) 5 9 _ _
    rfl rfl (by decide) rfl (by decide)

/-- C9: a membership-left event for a chat id with no record in the groups
map changes nothing at all: the whole state, the groups map and the
last_updated stamp included, is returned unchanged and the file is not
rewritten. -/
theorem C9_remove_unknown_chat_noop (now : Nat) (ev : ChatMemberUpdatedEvent)
    (d : GroupsData)
    (hrem : isRemoveTransition ev = true)
    (hmiss : lookupKey (toString ev.chat_id) d.groups = none) :
    bot_added_handler now ev d = d := by
  simp [bot_added_handler, remove_not_add ev hrem, hrem, hmiss]

/-- Witness for C9: a removal event for chat -42, which the state (holding
only chat 7) does not know, is a no-op. -/
theorem C9_remove_unknown_chat_noop_witness :
    bot_added_handler 3
      { chat_id := -42, chat_title := none, chat_type := "group",
        old_status := some "administrator", new_status := "left" }
      { groups := [("7", { id := 7, title := "Seven", type := "group",
                           first_detected := 1, last_activity := 1,
                           event_type := "bot_added", status := "active",
                           removed_at := none })],
        last_updated := some 1 }
      = { groups := [("7", { id := 7, title := "Seven", type := "group",
                             first_detected := 1, last_activity := 1,
                             event_type := "bot_added", status := "active",
                             removed_at := none })],
          last_updated := some 1 } :=
  C9_remove_unknown_chat_noop 3 _ _ (by decide) (by decide)

/-- C6: for every batch of source messages the exporter writes exactly one
JSON array record and exactly one JSONL line per message, and the JSONL
metadata message_id fields reproduce the source message ids in source
order. -/
theorem C6_export_counts (download describe : String → Option String)
    (chat_id : Int) (chat_title : String) (msgs : List TLMessage) :
    (save_to_json (export_chat_history download describe chat_id chat_title msgs)).length
        = msgs.length
  ∧ (prepare_for_vector_db (export_chat_history download describe chat_id chat_title msgs)).length
        = msgs.length
  ∧ (prepare_for_vector_db (export_chat_history download describe chat_id chat_title msgs)).map
        (fun entry => entry.metadata.message_id)
      = msgs.map (fun m => m.id) := by
  refine ⟨?_, ?_, ?_⟩
  · simp [save_to_json, export_chat_history]
  · simp [prepare_for_vector_db, export_chat_history]
  · simp [prepare_for_vector_db, export_chat_history, build_chat_message]

/-- Mapping form of one HTML element into one collected item. -/
def html_to_item (e : HtmlMessageElement) : RagItem :=
  { message_id := e.message_id, sender := e.sender, time := e.time, text := e.text }

/-- C10: the HTML converter silently skips exactly the elements whose
extracted text is empty: the collected items are the non-empty-text elements
in page order, and both outputs carry exactly one record per such
element. -/
theorem C10_html_skip_empty (els : List HtmlMessageElement) :
    collect_items els = (els.filter (fun e => !(e.text == ""))).map html_to_item
  ∧ (md_lines els).length = (els.filter (fun e => !(e.text == ""))).length
  ∧ (jsonl_records els).length = (els.filter (fun e => !(e.text == ""))).length := by
  have hcollect :
      collect_items els = (els.filter (fun e => !(e.text == ""))).map html_to_item := by
    induction els with
    | nil => rfl
    | cons e rest ih =>
      by_cases he : e.text = ""
      · simpa [collect_items, List.filter_cons, he] using ih
      · simpa [collect_items, List.filter_cons, he, html_to_item] using ih
  refine ⟨hcollect, ?_, ?_⟩
  · simp [md_lines, hcollect]
  · simp [jsonl_records, hcollect]

theorem pyFold_sorted {α : Type} (f : α → Nat) :
    ∀ (xs : List α) (x : α), List.Pairwise (fun p q => f p < f q) (x :: xs) →
      some (xs.foldl (fun acc y => if f acc < f y then y else acc) x) = (x :: xs).getLast? := by
  intro xs
  induction xs with
  | nil =>
    intro x _
    simp
  | cons y ys ih =>
    intro x h
    have hp := List.pairwise_cons.mp h
    have hxy : f x < f y := hp.1 y (by simp)
    simp only [List.foldl_cons, if_pos hxy]
    rw [ih y hp.2]
    rw [List.getLast?_cons_cons]

theorem sorted_le_getLast {α : Type} (f : α → Nat) :
    ∀ (l : List α) (b : α), List.Pairwise (fun p q => f p < f q) l →
      l.getLast? = some b → ∀ p ∈ l, f p ≤ f b := by
  intro l
  induction l with
  | nil =>
    intro b _ hb
    simp at hb
  | cons x xs ih =>
    intro b h hb p hp
    cases xs with
    | nil =>
      simp at hb hp
      rw [hp, hb]
    | cons y ys =>
      rw [List.getLast?_cons_cons] at hb
      have hp2 := List.pairwise_cons.mp h
      rcases List.mem_cons.mp hp with hpx | hpxs
      · have hmem : b ∈ (y :: ys).getLast? := by rw [Option.mem_def]; exact hb
        obtain ⟨hne2, hb2⟩ := List.mem_getLast?_eq_getLast hmem
        have hbmem : b ∈ y :: ys := by
          rw [hb2]
          exact List.getLast_mem hne2
        rw [hpx]
        exact le_of_lt (hp2.1 b hbmem)
      · exact ih b hp2.2 hb p hpxs

/-- C7: on a non-empty photo size list whose areas grow strictly along the
list (the order Telegram provides), the photo the bot resolver picks (the
last element) and the photo the exporter picks (the first area-maximal
element, as Python max does) are the same photo, and that photo has maximal
area among all offered sizes. -/
theorem C7_largest_photo (photos : List TgPhoto) (hne : photos ≠ [])
    (hord : List.Pairwise (fun p q => photoArea p < photoArea q) photos) :
    ∃ chosen : TgPhoto,
      bot_photo_choice photos = some chosen
      ∧ process_photo_choice photos = some chosen
      ∧ ∀ p ∈ photos, photoArea p ≤ photoArea chosen := by
  cases hlast : photos.getLast? with
  | none => exact absurd (List.getLast?_eq_none_iff.mp hlast) hne
  | some chosen =>
    refine ⟨chosen, hlast, ?_, sorted_le_getLast photoArea photos chosen hord hlast⟩
    cases photos with
    | nil => simp at hlast
    | cons x xs =>
      have hfold := pyFold_sorted photoArea xs x hord
      simp only [process_photo_choice, pyMaxBy]
      rw [hfold]
      exact hlast

/-- Witness for C7: three concrete sizes with strictly growing areas; both
selection rules return the 800 by 600 size, whose area dominates. -/
theorem C7_largest_photo_witness :
    ∃ chosen : TgPhoto,
      bot_photo_choice
          [{ file_id := "s", width := 90, height := 90 },
           { file_id := "m", width := 320, height := 240 },
           { file_id := "l", width := 800, height := 600 }] = some chosen
      ∧ process_photo_choice
          [{ file_id := "s", width := 90, height := 90 },
           { file_id := "m", width := 320, height := 240 },
           { file_id := "l", width := 800, height := 600 }] = some chosen
      ∧ ∀ p ∈ [({ file_id := "s", width := 90, height := 90 } : TgPhoto),
               { file_id := "m", width := 320, height := 240 },
               { file_id := "l", width := 800, height := 600 }],
          photoArea p ≤ photoArea chosen :=
  C7_largest_photo _ (by decide) (by decide)

theorem round_aspect_close (q : ℚ) (err : ℤ → ℚ) (hq : 0 < q) :
    |((round_aspect q err : ℤ) : ℚ) - q| ≤ 1 := by
  unfold round_aspect
  have hfl : (⌊q⌋ : ℚ) ≤ q := Int.floor_le q
  have hfl2 : q - 1 < (⌊q⌋ : ℚ) := Int.sub_one_lt_floor q
  have hcu : q ≤ (⌈q⌉ : ℚ) := Int.le_ceil q
  have hcu2 : (⌈q⌉ : ℚ) < q + 1 := Int.ceil_lt_add_one q
  have hf0 : (0:ℤ) ≤ ⌊q⌋ := Int.floor_nonneg.mpr hq.le
  set c : ℤ := if err ⌈q⌉ < err ⌊q⌋ then ⌈q⌉ else ⌊q⌋ with hc
  have hcbound : |(c : ℚ) - q| ≤ 1 := by
    rw [hc]
    split
    · rw [abs_le]
      constructor <;> linarith
    · rw [abs_le]
      constructor <;> linarith
  by_cases h1 : (1:ℤ) ≤ c
  · rw [max_eq_left h1]
    exact hcbound
  · push_neg at h1
    rw [max_eq_right h1.le]
    have hc0 : c = ⌈q⌉ ∨ c = ⌊q⌋ := by
      rw [hc]
      split
      · exact Or.inl rfl
      · exact Or.inr rfl
    have hcq : c = ⌊q⌋ := by
      rcases hc0 with hce | hcf
      · exfalso
        have hcp : 0 < ⌈q⌉ := Int.ceil_pos.mpr hq
        omega
      · exact hcf
    have hfloor0 : ⌊q⌋ = (0:ℤ) := by omega
    have hq1 : q < 1 := by
      rw [hfloor0] at hfl2
      push_cast at hfl2
      linarith
    rw [abs_le]
    constructor <;> push_cast <;> linarith

theorem round_aspect_le (q : ℚ) (err : ℤ → ℚ) (n : ℤ) (hn : 1 ≤ n) (hq : q ≤ (n : ℚ)) :
    round_aspect q err ≤ n := by
  unfold round_aspect
  have hc : ⌈q⌉ ≤ n := Int.ceil_le.mpr hq
  have hf : ⌊q⌋ ≤ n := le_trans (Int.floor_le_ceil q) hc
  have hsel : (if err ⌈q⌉ < err ⌊q⌋ then ⌈q⌉ else ⌊q⌋) ≤ n := by
    split
    · exact hc
    · exact hf
  exact max_le hsel hn

/-- C8: for every input image with a dimension beyond 800, the re-encoded
output of the exporter thumbnail call keeps both dimensions between 1 and
800 and preserves the aspect ratio within integer rounding: the cross
product of the output pair differs from the exact aspect-preserving value by
at most one rounding unit of the kept dimension. -/
theorem C8_thumbnail_bounds (w h : ℤ) (hw : 1 ≤ w) (hh : 1 ≤ h)
    (hbig : 800 < w ∨ 800 < h) :
    (1 ≤ (process_media_size w h).1 ∧ (process_media_size w h).1 ≤ 800)
  ∧ (1 ≤ (process_media_size w h).2 ∧ (process_media_size w h).2 ≤ 800)
  ∧ (|(process_media_size w h).1 * h - w * (process_media_size w h).2| ≤ h
     ∨ |(process_media_size w h).1 * h - w * (process_media_size w h).2| ≤ w) := by
  have hwz : (0:ℤ) < w := by omega
  have hhz : (0:ℤ) < h := by omega
  have hw0 : (0:ℚ) < (w:ℚ) := by exact_mod_cast hwz
  have hh0 : (0:ℚ) < (h:ℚ) := by exact_mod_cast hhz
  have hcond : ¬((800:ℤ) ≥ w ∧ (800:ℤ) ≥ h) := by omega
  unfold process_media_size thumbnail_size
  rw [if_neg hcond]
  dsimp only
  split
  next hbr =>
    have h1 : (w:ℚ) / (h:ℚ) ≤ 1 := by
      push_cast at hbr
      norm_num at hbr
      exact hbr
    have hqpos : (0:ℚ) < ((800:ℤ):ℚ) * ((w:ℚ) / (h:ℚ)) := by
      apply mul_pos
      · norm_num
      · exact div_pos hw0 hh0
    have hqle : ((800:ℤ):ℚ) * ((w:ℚ) / (h:ℚ)) ≤ ((800:ℤ):ℚ) := by
      push_cast
      nlinarith [div_pos hw0 hh0]
    have hxle := round_aspect_le (((800:ℤ):ℚ) * ((w:ℚ) / (h:ℚ)))
      (fun n => |(w:ℚ) / (h:ℚ) - (n : ℚ) / ((800:ℤ):ℚ)|) 800 (by norm_num) hqle
    have hxge := le_max_right
      (if (fun n => |(w:ℚ) / (h:ℚ) - (n : ℚ) / ((800:ℤ):ℚ)|) ⌈((800:ℤ):ℚ) * ((w:ℚ) / (h:ℚ))⌉ <
          (fun n => |(w:ℚ) / (h:ℚ) - (n : ℚ) / ((800:ℤ):ℚ)|) ⌊((800:ℤ):ℚ) * ((w:ℚ) / (h:ℚ))⌋
        then ⌈((800:ℤ):ℚ) * ((w:ℚ) / (h:ℚ))⌉ else ⌊((800:ℤ):ℚ) * ((w:ℚ) / (h:ℚ))⌋) 1
    have hclose := round_aspect_close (((800:ℤ):ℚ) * ((w:ℚ) / (h:ℚ)))
      (fun n => |(w:ℚ) / (h:ℚ) - (n : ℚ) / ((800:ℤ):ℚ)|) hqpos
    set x : ℤ := round_aspect (((800:ℤ):ℚ) * ((w:ℚ) / (h:ℚ)))
      (fun n => |(w:ℚ) / (h:ℚ) - (n : ℚ) / ((800:ℤ):ℚ)|) with hxdef
    refine ⟨⟨?_, hxle⟩, ⟨by norm_num, by norm_num⟩, Or.inl ?_⟩
    · rw [hxdef]
      unfold round_aspect
      exact hxge
    · have hexp : ((x:ℚ) - ((800:ℤ):ℚ) * ((w:ℚ) / (h:ℚ))) * (h:ℚ)
          = (x:ℚ) * (h:ℚ) - (w:ℚ) * ((800:ℤ):ℚ) := by
        field_simp
        ring
      have key : |(x:ℚ) * (h:ℚ) - (w:ℚ) * ((800:ℤ):ℚ)| ≤ (h:ℚ) := by
        rw [← hexp, abs_mul, abs_of_pos hh0]
        calc |(x:ℚ) - ((800:ℤ):ℚ) * ((w:ℚ) / (h:ℚ))| * (h:ℚ)
            ≤ 1 * (h:ℚ) := mul_le_mul_of_nonneg_right hclose hh0.le
          _ = (h:ℚ) := one_mul _
      exact_mod_cast key
  next hbr =>
    have h1 : (1:ℚ) < (w:ℚ) / (h:ℚ) := by
      push_cast at hbr
      norm_num at hbr
      exact hbr
    have hapos : (0:ℚ) < (w:ℚ) / (h:ℚ) := div_pos hw0 hh0
    have hqpos : (0:ℚ) < ((800:ℤ):ℚ) / ((w:ℚ) / (h:ℚ)) := by
      apply div_pos
      · norm_num
      · exact hapos
    have hqle : ((800:ℤ):ℚ) / ((w:ℚ) / (h:ℚ)) ≤ ((800:ℤ):ℚ) := by
      apply div_le_self
      · norm_num
      · exact h1.le
    have hyle := round_aspect_le (((800:ℤ):ℚ) / ((w:ℚ) / (h:ℚ)))
      (fun n => if n = 0 then 0 else |(w:ℚ) / (h:ℚ) - ((800:ℤ):ℚ) / (n : ℚ)|)
      800 (by norm_num) hqle
    have hclose := round_aspect_close (((800:ℤ):ℚ) / ((w:ℚ) / (h:ℚ)))
      (fun n => if n = 0 then 0 else |(w:ℚ) / (h:ℚ) - ((800:ℤ):ℚ) / (n : ℚ)|) hqpos
    set y : ℤ := round_aspect (((800:ℤ):ℚ) / ((w:ℚ) / (h:ℚ)))
      (fun n => if n = 0 then 0 else |(w:ℚ) / (h:ℚ) - ((800:ℤ):ℚ) / (n : ℚ)|) with hydef
    have hyge : (1:ℤ) ≤ y := by
      rw [hydef]
      unfold round_aspect
      exact le_max_right _ 1
    refine ⟨⟨by norm_num, by norm_num⟩, ⟨hyge, hyle⟩, Or.inr ?_⟩
    have hexp : (((y:ℚ) - ((800:ℤ):ℚ) / ((w:ℚ) / (h:ℚ))) * (w:ℚ))
        = (w:ℚ) * (y:ℚ) - ((800:ℤ):ℚ) * (h:ℚ) := by
      rw [div_div_eq_mul_div]
      field_simp
      ring
    have key : |((800:ℤ):ℚ) * (h:ℚ) - (w:ℚ) * (y:ℚ)| ≤ (w:ℚ) := by
      rw [abs_sub_comm, ← hexp, abs_mul, abs_of_pos hw0]
      calc |(y:ℚ) - ((800:ℤ):ℚ) / ((w:ℚ) / (h:ℚ))| * (w:ℚ)
          ≤ 1 * (w:ℚ) := mul_le_mul_of_nonneg_right hclose hw0.le
        _ = (w:ℚ) := one_mul _
    exact_mod_cast key


/-- Witness for C8: a 1600 by 1200 input is reduced to a size within the
800 box with the 4 to 3 ratio kept within rounding. -/
theorem C8_thumbnail_bounds_witness :
    (1 ≤ (process_media_size 1600 1200).1 ∧ (process_media_size 1600 1200).1 ≤ 800)
  ∧ (1 ≤ (process_media_size 1600 1200).2 ∧ (process_media_size 1600 1200).2 ≤ 800)
  ∧ (|(process_media_size 1600 1200).1 * 1200 - 1600 * (process_media_size 1600 1200).2| ≤ 1200
     ∨ |(process_media_size 1600 1200).1 * 1200 - 1600 * (process_media_size 1600 1200).2| ≤ 1600) :=
  C8_thumbnail_bounds 1600 1200 (by norm_num) (by norm_num) (Or.inl (by norm_num))
